import Mathlib

/-!
Verification development for the GlobalPartners analytics dashboard
(`src/app.py`).  The dashboard loads precomputed "gold" tables from a
warehouse, normalizes numeric columns, and renders several report
sections (CLV, segmentation, churn, sales trends, location performance,
loyalty, discount effectiveness).

This file gives a shallow embedding of the data model and of the
computations the report sections perform, and proves (or refutes)
the specified properties about them.  Machine floats are modelled by
`PyFloat` (a finite rational, signed infinity, or NaN); warehouse cell
values by `PyVal` (a number, a text, or a null).
-/

/-- Model of a Python/pandas float value: a finite value (modelled
exactly as a rational), positive or negative infinity, or NaN. -/
inductive PyFloat where
  | fin (q : ℚ)
  | inf
  | ninf
  | nan
deriving DecidableEq, Repr

namespace PyFloat

/-- A float is finite when it is neither an infinity nor NaN. -/
def isFinite : PyFloat → Bool
  | fin _ => true
  | _ => false

/-- IEEE-style multiplication on the float model (only the sign cases
needed for products of finite values and infinities). -/
def mul : PyFloat → PyFloat → PyFloat
  | fin a, fin b => fin (a * b)
  | nan, _ => nan
  | _, nan => nan
  | inf, inf => inf
  | inf, ninf => ninf
  | ninf, inf => ninf
  | ninf, ninf => inf
  | inf, fin b => if b = 0 then nan else if 0 < b then inf else ninf
  | fin a, inf => if a = 0 then nan else if 0 < a then inf else ninf
  | ninf, fin b => if b = 0 then nan else if 0 < b then ninf else inf
  | fin a, ninf => if a = 0 then nan else if 0 < a then ninf else inf

/-- IEEE-style division on the float model: a finite value divided by
zero gives a signed infinity (NaN for 0/0); infinities and NaN
propagate. -/
def div : PyFloat → PyFloat → PyFloat
  | fin a, fin b =>
      if b = 0 then (if a = 0 then nan else if 0 < a then inf else ninf)
      else fin (a / b)
  | nan, _ => nan
  | _, nan => nan
  | inf, fin _ => inf
  | ninf, fin _ => ninf
  | fin _, inf => fin 0
  | fin _, ninf => fin 0
  | inf, inf => nan
  | inf, ninf => nan
  | ninf, inf => nan
  | ninf, ninf => nan

end PyFloat

/-- Model of a raw warehouse cell value as returned by the query
client: a (finite) numeric value, a text value, or a null/missing
value. -/
inductive PyVal where
  | num (q : ℚ)
  | text (s : String)
  | null
deriving DecidableEq, Repr

/-- Numeric value of a list of decimal digit characters. -/
def digitsVal (l : List Char) : ℕ :=
  l.foldl (fun n c => n * 10 + (c.toNat - 48)) 0

/-- Exact value of a text-encoded decimal literal: an optional sign,
an integer part, and an optional fractional part, at least one digit
in total.  This is the grammar of the "text-encoded decimals" the
spec says the warehouse client may return for numeric fields; the
float64 overflow saturation the C parser performs on the value is
applied by `textToNumeric` on top of this exact value. -/
def parseDecimal (s : String) : Option ℚ :=
  let cs := s.toList
  let sgn : ℚ := match cs with
    | '-' :: _ => -1
    | _ => 1
  let cs1 : List Char := match cs with
    | '-' :: r => r
    | '+' :: r => r
    | r => r
  let intPart := cs1.takeWhile Char.isDigit
  let rest1 := cs1.dropWhile Char.isDigit
  match rest1 with
  | [] => if intPart.isEmpty then none else some (sgn * (digitsVal intPart : ℚ))
  | '.' :: fr =>
      let fracPart := fr.takeWhile Char.isDigit
      let rest2 := fr.dropWhile Char.isDigit
      if rest2.isEmpty && !(intPart.isEmpty && fracPart.isEmpty) then
        some (sgn * ((digitsVal intPart : ℚ) +
          (digitsVal fracPart : ℚ) / ((10 : ℚ) ^ fracPart.length)))
      else none
  | _ => none

/-- The smallest magnitude at which float64 round-to-nearest-even
overflows to infinity: 2^1024 - 2^970 (everything at or above this
rounds to ±inf; below it the parsed value rounds to a finite float,
idealized in this model as the exact rational). -/
def FLOAT64_OVERFLOW : ℚ :=
  179769313486231580793728971405303415079934132710037826936173778980444968292764750946649017977587207096330286416692887910946555547851940402630657488671505820681908902000708383676273854845817711531764475730270069855571366959622842914819860834936475292719074168444365510704342711559699508093042880177904174497792

/-- Conversion of an exact parsed value to a float64, as C `strtod`
does: magnitudes past the overflow threshold saturate to a signed
infinity. -/
def toFloat64 (q : ℚ) : PyFloat :=
  if FLOAT64_OVERFLOW ≤ |q| then
    (if 0 < q then PyFloat.inf else PyFloat.ninf)
  else PyFloat.fin q

/-- `pd.to_numeric(errors='coerce')` on a text cell: an optionally
signed `inf`/`infinity` literal (case-insensitive) parses to a signed
infinity; decimal text parses to its value saturated to float64 range
(so out-of-range text also yields ±inf); anything else coerces to
NaN. -/
def textToNumeric (s : String) : PyFloat :=
  let cs := s.toList
  let neg : Bool := match cs with
    | '-' :: _ => true
    | _ => false
  let cs1 : List Char := match cs with
    | '-' :: r => r
    | '+' :: r => r
    | r => r
  let low := cs1.map Char.toLower
  if low = "inf".toList || low = "infinity".toList then
    (if neg then PyFloat.ninf else PyFloat.inf)
  else
    match parseDecimal s with
    | some q => toFloat64 q
    | none => PyFloat.nan

/-- `pd.to_numeric(value, errors='coerce')` on a single cell: numeric
values (already float64, hence finite here) pass through, text goes
through the numeric parser — yielding its float64 value, a signed
infinity for infinity literals and overflowing decimals, or NaN when
unparseable — and nulls become NaN. -/
def toNumericCoerce : PyVal → PyFloat
  | PyVal.num q => PyFloat.fin q
  | PyVal.text s => textToNumeric s
  | PyVal.null => PyFloat.nan

/-- `.fillna(0)` on a single cell: NaN becomes 0, everything else is
unchanged. -/
def fillna0 : PyFloat → PyFloat
  | PyFloat.nan => PyFloat.fin 0
  | x => x

/-- Normalization of a cell of one of the designated numeric columns of
`customer_intelligence` (src/app.py lines 25-28):
`pd.to_numeric(col, errors='coerce').fillna(0)`. -/
def cleanNumericCell (v : PyVal) : PyFloat :=
  fillna0 (toNumericCoerce v)

/-- Coercion of a `daily_revenue` cell of `location_sales_trends`
(src/app.py line 351): `pd.to_numeric(col, errors='coerce')` with NO
`.fillna(0)` step. -/
def coerceTrendRevenue (v : PyVal) : PyFloat :=
  toNumericCoerce v


/-- Modelled from the spec: the caching semantics of the
`@st.cache_data(ttl=3600)` decorator on `load_gold_data`
(src/app.py lines 16-18) live inside the dashboard framework, not in
this repository.  Following the spec's design note, the cache is an
explicit mapping from table identifier to a value together with its
fetch timestamp (in seconds). -/
structure CacheEntry (α : Type) where
  value : α
  fetchedAt : ℕ
deriving DecidableEq, Repr

/-- The cache state: an association list from table identifier to
cached entry (at most one binding per identifier is ever produced). -/
def Cache (α : Type) : Type := List (String × CacheEntry α)

/-- The freshness window of `st.cache_data(ttl=3600)`: one hour,
in seconds. -/
def CACHE_TTL : ℕ := 3600

/-- Look up the cached entry for a table identifier. -/
def lookupCache {α : Type} (c : Cache α) (t : String) : Option (CacheEntry α) :=
  (List.find? (fun p => p.1 == t) c).map (fun p => p.2)

/-- Store (or replace) the cached entry for a table identifier. -/
def storeCache {α : Type} (c : Cache α) (t : String) (e : CacheEntry α) : Cache α :=
  (t, e) :: List.filter (fun p => !(p.1 == t)) c

/-- Modelled from the spec: `get_or_fetch(id, now)` for the cached
table loader `load_gold_data`.  `fetch` is the warehouse query
(`SELECT * FROM <table>`), modelled as a pure function since fetches
are idempotent and side-effect-free per the spec.  Returns the loaded
table, the new cache state, and whether a warehouse query was issued
on this call. -/
def get_or_fetch {α : Type} (fetch : String → α) (c : Cache α) (t : String)
    (now : ℕ) : α × Cache α × Bool :=
  match lookupCache c t with
  | some e =>
      if now < e.fetchedAt + CACHE_TTL then (e.value, c, false)
      else (fetch t, storeCache c t ⟨fetch t, now⟩, true)
  | none => (fetch t, storeCache c t ⟨fetch t, now⟩, true)


/-- A row of the `location_sales_trends` gold table.  `order_date` is
stored as a calendar date; `daily_revenue` and `daily_order_count` are
floats (after the line-351 coercion, `daily_revenue` is finite or
NaN). -/
structure CivilDate where
  year : ℕ
  month : ℕ
  day : ℕ
deriving DecidableEq, Repr

/-- Day count of a civil date (days since 0000-03-01, proleptic
Gregorian calendar; day 0 is a Wednesday).  Used to model pandas
timestamp ordering and week alignment. -/
def toEpochDays (d : CivilDate) : ℕ :=
  let y := if d.month ≤ 2 then d.year - 1 else d.year
  let era := y / 400
  let yoe := y % 400
  let mp := (d.month + 9) % 12
  let doy := (153 * mp + 2) / 5 + (d.day - 1)
  let doe := yoe * 365 + yoe / 4 - yoe / 100 + doy
  era * 146097 + doe


/-- The week bucket used by `pd.Grouper(freq='W')`: each date is
labelled by the Sunday on or after it (weeks end on Sunday).  Day 0 of
`toEpochDays` is a Wednesday, so Sundays are the days `≡ 4 (mod 7)`. -/
def weekBucket (z : ℕ) : ℕ :=
  z + (11 - z % 7) % 7


/-- The time grain selected by the radio control (src/app.py
line 357). -/
inductive TimeGrain where
  | Daily
  | Weekly
  | Monthly
deriving DecidableEq, Repr

/-- The grouping key used by the sales-trends reshape (src/app.py
lines 370-378): the date itself for Daily, the calendar-aligned week
ending Sunday for Weekly (`freq='W'`), and the calendar month for
Monthly (`freq='M'`, labelled here by a month index rather than by the
month-end date, a bijective relabelling). -/
def bucketKey : TimeGrain → CivilDate → ℕ
  | TimeGrain.Daily, d => toEpochDays d
  | TimeGrain.Weekly, d => weekBucket (toEpochDays d)
  | TimeGrain.Monthly, d => d.year * 12 + (d.month - 1)

structure TrendRow where
  restaurant_id : String
  order_date : CivilDate
  item_category : String
  daily_revenue : PyFloat
  daily_order_count : PyFloat
deriving DecidableEq, Repr

/-- The finite values of a list of floats; pandas reductions (`sum`,
`mean`) skip NaN values (`skipna=True`, the default). -/
def skipnaVals (l : List PyFloat) : List ℚ :=
  l.filterMap (fun x => match x with
    | PyFloat.fin q => some q
    | _ => none)

/-- pandas `.sum()` over a float column: the sum of the non-NaN
values (0 when there are none). -/
def pandasSum (l : List PyFloat) : ℚ :=
  (skipnaVals l).sum

/-- pandas `.mean()` over a float column: the mean of the non-NaN
values, NaN when there are none. -/
def pandasMean (l : List PyFloat) : PyFloat :=
  let v := skipnaVals l
  if v.length = 0 then PyFloat.nan else PyFloat.fin (v.sum / v.length)

/-- Generic relational `groupby(keys).sum()`: one output row per
distinct key (in first-appearance order), carrying the pandas sum of
`f` over the rows with that key. -/
def groupbySum {α K : Type} [DecidableEq K] (k : α → K) (f : α → ℚ)
    (rows : List α) : List (K × ℚ) :=
  ((rows.map k).dedup).map
    (fun key => (key, ((rows.filter (fun r => k r = key)).map f).sum))

/-- The revenue contribution of a trend row to a pandas sum: its
`daily_revenue` when finite, and 0 when NaN (skipped). -/
def revenueVal (r : TrendRow) : ℚ :=
  match r.daily_revenue with
  | PyFloat.fin q => q
  | _ => 0

/-- The location filter (src/app.py line 368):
`df_trends[df_trends['restaurant_id'].isin(selected_locations)]`. -/
def df_filtered (sel : List String) (rows : List TrendRow) : List TrendRow :=
  rows.filter (fun r => sel.contains r.restaurant_id)

/-- The sales-trends reshape (src/app.py lines 370-378): group the
filtered rows by (time bucket, restaurant_id) and sum
`daily_revenue`. -/
def df_plot (grain : TimeGrain) (sel : List String) (rows : List TrendRow) :
    List ((ℕ × String) × ℚ) :=
  groupbySum (fun r => (bucketKey grain r.order_date, r.restaurant_id))
    revenueVal (df_filtered sel rows)


/-- A row of the `customer_intelligence` gold table.  The numeric
columns are rationals: the designated-column normalization
(src/app.py lines 25-28) makes every such cell a finite float. -/
structure CustomerRow where
  user_id : String
  current_clv : ℚ
  clv_tier : String
  segment : String
  recency : ℚ
  frequency : ℚ
deriving DecidableEq, Repr

/-- The descending-CLV order used by
`df_intel.sort_values("current_clv", ascending=False)`
(src/app.py line 81). -/
def clvDescOrder (a b : CustomerRow) : Prop :=
  b.current_clv ≤ a.current_clv

instance : DecidableRel clvDescOrder :=
  fun a b => inferInstanceAs (Decidable (b.current_clv ≤ a.current_clv))

instance : IsTotal CustomerRow clvDescOrder :=
  ⟨fun a b => le_total b.current_clv a.current_clv⟩

instance : IsTrans CustomerRow clvDescOrder :=
  ⟨fun _ _ _ h1 h2 => le_trans h2 h1⟩

/-- Top-N customer selection (src/app.py line 81):
`df_intel.sort_values("current_clv", ascending=False).head(top_n)`. -/
def df_top_customers (top_n : ℕ) (df : List CustomerRow) : List CustomerRow :=
  (List.insertionSort clvDescOrder df).take top_n

/-- The "gap" filter (src/app.py lines 309-312): customers with
`clv_tier == 'High'` and `segment == 'Churn Risk'`. -/
def df_gap (df : List CustomerRow) : List CustomerRow :=
  df.filter (fun r => r.clv_tier == "High" && r.segment == "Churn Risk")

/-- The descending-recency order used to display the gap table
(src/app.py line 320). -/
def recencyDescOrder (a b : CustomerRow) : Prop :=
  b.recency ≤ a.recency

instance : DecidableRel recencyDescOrder :=
  fun a b => inferInstanceAs (Decidable (b.recency ≤ a.recency))

/-- The gap view (src/app.py lines 314-323): when the gap filter is
empty nothing is rendered (`none`, the defined empty state); otherwise
the gap rows are rendered sorted by recency descending.  The column
projection and dollar formatting are presentational and not
modelled. -/
def gapView (df : List CustomerRow) : Option (List CustomerRow) :=
  let g := df_gap df
  if g.isEmpty then none else some (List.insertionSort recencyDescOrder g)

/-- The per-location rollup row (src/app.py lines 415-428), after the
multi-index columns are flattened. -/
structure StorePerfRow where
  restaurant_id : String
  total_revenue : ℚ
  avg_daily_revenue : PyFloat
  avg_daily_orders : PyFloat
  days_active : ℕ
  avg_order_value : PyFloat
deriving DecidableEq, Repr

/-- Float product `avg_daily_orders * days_active` followed by the
float division `total_revenue / ...` of src/app.py line 428. -/
def derivedAov (totalRevenue : ℚ) (avgDailyOrders : PyFloat)
    (daysActive : ℕ) : PyFloat :=
  PyFloat.div (PyFloat.fin totalRevenue)
    (PyFloat.mul avgDailyOrders (PyFloat.fin daysActive))

/-- The per-location rollup (src/app.py lines 415-428): group
`location_sales_trends` by `restaurant_id`; aggregate
`daily_revenue` by sum and mean, `daily_order_count` by mean and
`order_date` by nunique; then derive
`avg_order_value = total_revenue / (avg_daily_orders * days_active)`.
The subsequent sort by `total_revenue` descending (line 431) permutes
rows and is immaterial to the per-row metrics. -/
def df_store_perf (rows : List TrendRow) : List StorePerfRow :=
  ((rows.map (fun r => r.restaurant_id)).dedup).map (fun rid =>
    let g := rows.filter (fun r => r.restaurant_id == rid)
    let total := pandasSum (g.map (fun r => r.daily_revenue))
    let avgOrd := pandasMean (g.map (fun r => r.daily_order_count))
    let days := ((g.map (fun r => r.order_date)).dedup).length
    { restaurant_id := rid
      total_revenue := total
      avg_daily_revenue := pandasMean (g.map (fun r => r.daily_revenue))
      avg_daily_orders := avgOrd
      days_active := days
      avg_order_value := derivedAov total avgOrd days })

/-- The loyalty lift computation (src/app.py lines 529-530):
`((member_metric - non_member_metric) / non_member_metric) * 100`,
with float semantics.  Used for both `aov_diff` and `repeat_diff`. -/
def aov_diff (memberMetric nonMemberMetric : ℚ) : PyFloat :=
  PyFloat.mul
    (PyFloat.div (PyFloat.fin (memberMetric - nonMemberMetric))
      (PyFloat.fin nonMemberMetric))
    (PyFloat.fin 100)

/-- A row of the `discount_effectiveness` gold table (the data model's
DiscountEffectiveness entity). -/
structure DiscountRow where
  status : String
  order_count : ℚ
  total_revenue : ℚ
  avg_order_value : ℚ
deriving DecidableEq, Repr

/-- The hard-coded `discount_data` order counts of src/app.py
lines 632-637: discounted 9150, full price 122178. -/
def discount_data_order_counts : List ℚ := [9150, 122178]

/-- The hard-coded `discount_data` revenues of src/app.py
lines 632-637: discounted 4,695,684.17, full price 13,343,599.60. -/
def discount_data_revenues : List ℚ := [4695684.17, 13343599.60]

/-- `aov_lift` (src/app.py line 641): `((113.87 - 52.83) / 52.83) * 100`,
from the hard-coded AOV literals. -/
def aov_lift : ℚ := (113.87 - 52.83) / 52.83 * 100

/-- `total_orders` (src/app.py line 666): sum of the hard-coded order
counts. -/
def total_orders : ℚ := discount_data_order_counts.sum

/-- `total_rev` (src/app.py line 667): sum of the hard-coded
revenues. -/
def total_rev : ℚ := discount_data_revenues.sum

/-- `disc_order_pct` (src/app.py line 668): `(9150 / total_orders) * 100`.
The denominator is the nonzero literal sum 131328, so plain rational
division coincides with float division. -/
def disc_order_pct : ℚ := 9150 / total_orders * 100

/-- `disc_rev_pct` (src/app.py line 669): `(4695684 / total_rev) * 100`
(the code drops the fractional `.17` of the discounted revenue in the
numerator). -/
def disc_rev_pct : ℚ := 4695684 / total_rev * 100

/-- The numeric outputs of the Discount Effectiveness section
(src/app.py lines 632-679), as a function of the loaded
`discount_effectiveness` table.  Faithful to the code: the section
computes all its metrics from the hard-coded `discount_data` literals
and never reads `df_discount`. -/
def discountSectionMetrics (_dfDiscount : List DiscountRow) : ℚ × ℚ × ℚ :=
  (aov_lift, disc_order_pct, disc_rev_pct)

/-- A small concrete `customer_intelligence` table with distinct
user identifiers, used to instantiate universally quantified
theorems. -/
def sampleCustomers : List CustomerRow :=
  [⟨"u1", 120, "High", "VIP", 10, 5⟩,
   ⟨"u2", 80, "Medium", "Standard", 30, 2⟩,
   ⟨"u3", 200, "High", "Churn Risk", 190, 0⟩]

/-- A concrete `customer_intelligence` table in which no row is both
High tier and Churn Risk. -/
def sampleNoGapCustomers : List CustomerRow :=
  [⟨"u1", 50, "Low", "VIP", 5, 1⟩,
   ⟨"u2", 90, "High", "Standard", 12, 3⟩]

/-- A concrete `location_sales_trends` table for a single restaurant
whose every `daily_order_count` is zero, so that the per-location
rollup's derived denominator `avg_daily_orders * days_active`
vanishes while `total_revenue` is positive. -/
def zeroOrdersTrendRows : List TrendRow :=
  [⟨"R1", ⟨2024, 1, 1⟩, "Breakfast", PyFloat.fin 10, PyFloat.fin 0⟩,
   ⟨"R1", ⟨2024, 1, 2⟩, "Breakfast", PyFloat.fin 20, PyFloat.fin 0⟩]

/-- An indicator sum over a key list with no duplicates picks out the
single matching key. -/
theorem sum_map_indicator_of_not_mem {K : Type} [DecidableEq K]
    (keys : List K) (a : K) (c : ℚ) (ha : a ∉ keys) :
    (keys.map (fun key => if a = key then c else 0)).sum = 0 := by
  induction keys with
  | nil => simp
  | cons b bs ih =>
      have hab : a ≠ b := fun h => ha (h ▸ List.mem_cons_self b bs)
      have hbs : a ∉ bs := fun h => ha (List.mem_cons_of_mem b h)
      simp [hab, ih hbs]

theorem sum_map_indicator {K : Type} [DecidableEq K]
    (keys : List K) (a : K) (c : ℚ) (hnd : keys.Nodup) (ha : a ∈ keys) :
    (keys.map (fun key => if a = key then c else 0)).sum = c := by
  induction keys with
  | nil => cases ha
  | cons b bs ih =>
      rcases List.mem_cons.mp ha with hab | hbs
      · subst hab
        have hnot : a ∉ bs := (List.nodup_cons.mp hnd).1
        simp [sum_map_indicator_of_not_mem bs a c hnot]
      · have hab : a ≠ b := by
          intro h
          exact (List.nodup_cons.mp hnd).1 (h ▸ hbs)
        simp [hab, ih (List.nodup_cons.mp hnd).2 hbs]

/-- Summing the per-key filtered sums over any duplicate-free list of
keys covering all the rows recovers the total sum. -/
theorem keyed_filter_sum {α K : Type} [DecidableEq K] (k : α → K) (f : α → ℚ)
    (rows : List α) (keys : List K) (hnd : keys.Nodup)
    (hcov : ∀ r ∈ rows, k r ∈ keys) :
    (keys.map (fun key => ((rows.filter (fun r => k r = key)).map f).sum)).sum
      = (rows.map f).sum := by
  induction rows with
  | nil => simp
  | cons r rs ih =>
      have hk : k r ∈ keys := hcov r (List.mem_cons_self r rs)
      have hstep : ∀ key : K,
          (((r :: rs).filter (fun x => k x = key)).map f).sum
            = (if k r = key then f r else 0)
              + ((rs.filter (fun x => k x = key)).map f).sum := by
        intro key
        by_cases h : k r = key <;> simp [List.filter_cons, h]
      calc (keys.map (fun key => (((r :: rs).filter (fun x => k x = key)).map f).sum)).sum
          = (keys.map (fun key => (if k r = key then f r else 0)
              + ((rs.filter (fun x => k x = key)).map f).sum)).sum := by
            simp only [hstep]
        _ = (keys.map (fun key => if k r = key then f r else 0)).sum
              + (keys.map (fun key => ((rs.filter (fun x => k x = key)).map f).sum)).sum := by
            rw [List.sum_map_add]
        _ = f r + (rs.map f).sum := by
            rw [sum_map_indicator keys (k r) (f r) hnd hk,
              ih (fun x hx => hcov x (List.mem_cons_of_mem r hx))]
        _ = ((r :: rs).map f).sum := by simp

/-- A `groupby(keys).sum()` is a partition of its input rows: the
output sums add up to the total. -/
theorem groupbySum_total {α K : Type} [DecidableEq K] (k : α → K) (f : α → ℚ)
    (rows : List α) :
    ((groupbySum k f rows).map Prod.snd).sum = (rows.map f).sum := by
  unfold groupbySum
  rw [List.map_map]
  exact keyed_filter_sum k f rows ((rows.map k).dedup)
    (List.nodup_dedup _)
    (fun r hr => List.mem_dedup.mpr (List.mem_map_of_mem k hr))

example : cleanNumericCell (PyVal.text "12.5") = PyFloat.fin (25/2) := by with_unfolding_all decide
example : cleanNumericCell (PyVal.text "abc") = PyFloat.fin 0 := by with_unfolding_all decide
example : coerceTrendRevenue (PyVal.text "abc") = PyFloat.nan := by with_unfolding_all decide
example : cleanNumericCell (PyVal.text "-3.25") = PyFloat.fin (-13/4) := by with_unfolding_all decide
example : cleanNumericCell PyVal.null = PyFloat.fin 0 := by with_unfolding_all decide
example : textToNumeric "Infinity" = PyFloat.inf := by with_unfolding_all decide
example : textToNumeric "-inf" = PyFloat.ninf := by with_unfolding_all decide
example : toFloat64 10000000000000000000000000000000000000000000000000000000000000000000000000000000000000000000000000000000000000000000000000000000000000000000000000000000000000000000000000000000000000000000000000000000000000000000000000000000000000000000000000000000000000000000000000000000000000000000000000000000000000000000000000000000000000000000000000000000000000000000000000000000000000000000000000000000000000000 = PyFloat.inf := by with_unfolding_all decide
example : toFloat64 (-10000000000000000000000000000000000000000000000000000000000000000000000000000000000000000000000000000000000000000000000000000000000000000000000000000000000000000000000000000000000000000000000000000000000000000000000000000000000000000000000000000000000000000000000000000000000000000000000000000000000000000000000000000000000000000000000000000000000000000000000000000000000000000000000000000000000000000) = PyFloat.ninf := by with_unfolding_all decide
example : toFloat64 1000000000000000000000000000000000000000000000000000000000000000000000000000000000000000000000000000000000000000000000000000000000000000000000000000000000000000000000000000000000000000000000000000000000000000000000000000000000000000000000000000000000000000000000000000000000000000000000000000000000000 = PyFloat.fin 1000000000000000000000000000000000000000000000000000000000000000000000000000000000000000000000000000000000000000000000000000000000000000000000000000000000000000000000000000000000000000000000000000000000000000000000000000000000000000000000000000000000000000000000000000000000000000000000000000000000000 := by
  norm_num [toFloat64, FLOAT64_OVERFLOW]

/-- After storing an entry for `t`, looking up `t` finds exactly that
entry. -/
theorem lookupCache_storeCache {α : Type} (c : Cache α) (t : String)
    (e : CacheEntry α) : lookupCache (storeCache c t e) t = some e := by
  simp [lookupCache, storeCache, List.find?]

example : toEpochDays ⟨2024, 2, 21⟩ % 7 = 0 := by decide
example : toEpochDays ⟨2024, 2, 25⟩ % 7 = 4 := by decide
example : toEpochDays ⟨2024, 2, 22⟩ - toEpochDays ⟨2024, 2, 21⟩ = 1 := by decide
example : toEpochDays ⟨2024, 3, 1⟩ - toEpochDays ⟨2024, 2, 29⟩ = 1 := by decide
example : toEpochDays ⟨2023, 3, 1⟩ - toEpochDays ⟨2023, 2, 28⟩ = 1 := by decide

example : weekBucket (toEpochDays ⟨2024, 2, 21⟩) = toEpochDays ⟨2024, 2, 25⟩ := by decide
example : weekBucket (toEpochDays ⟨2024, 2, 25⟩) = toEpochDays ⟨2024, 2, 25⟩ := by decide
example : weekBucket (toEpochDays ⟨2024, 2, 26⟩) = toEpochDays ⟨2024, 3, 3⟩ := by decide

/-- Claim C1: for every table identifier, a second call to the table
loader with the same identifier within the one-hour freshness window
returns the previously fetched result without issuing a new warehouse
query; once the window has elapsed, the next call issues a new query
and replaces the cached entry.  Stated over the explicit cache map
`get_or_fetch` with the current time as a parameter, starting from a
cache with no entry for the identifier. -/
theorem cache_hit_within_window_refresh_after {α : Type}
    (fetch : String → α) (c : Cache α) (t : String) (n₁ n₂ : ℕ)
    (h0 : lookupCache c t = none) :
    (get_or_fetch fetch c t n₁).2.2 = true ∧
    lookupCache (get_or_fetch fetch c t n₁).2.1 t = some ⟨fetch t, n₁⟩ ∧
    (n₂ < n₁ + CACHE_TTL →
      get_or_fetch fetch (get_or_fetch fetch c t n₁).2.1 t n₂
        = (fetch t, (get_or_fetch fetch c t n₁).2.1, false)) ∧
    (n₁ + CACHE_TTL ≤ n₂ →
      (get_or_fetch fetch (get_or_fetch fetch c t n₁).2.1 t n₂).2.2 = true ∧
      lookupCache (get_or_fetch fetch (get_or_fetch fetch c t n₁).2.1 t n₂).2.1 t
        = some ⟨fetch t, n₂⟩) := by
  have h1 : get_or_fetch fetch c t n₁
      = (fetch t, storeCache c t ⟨fetch t, n₁⟩, true) := by
    simp [get_or_fetch, h0]
  have h2 : lookupCache (storeCache c t ⟨fetch t, n₁⟩) t
      = some ⟨fetch t, n₁⟩ := lookupCache_storeCache c t _
  refine ⟨by rw [h1], by rw [h1]; exact h2, ?_, ?_⟩
  · intro hlt
    rw [h1]
    simp [get_or_fetch, h2, hlt]
  · intro hge
    rw [h1]
    simp only [get_or_fetch, h2]
    rw [if_neg (Nat.not_lt.mpr hge)]
    exact ⟨rfl, lookupCache_storeCache _ t _⟩

/-- Claim C1 witness: a concrete run of the cached loader on an empty
cache, with a hit 5 minutes later and a refresh exactly one hour
later. -/
theorem cache_hit_within_window_refresh_after_witness :
    (get_or_fetch (fun _ => (0 : ℕ)) [] "customer_intelligence" 0).2.2 = true ∧
    lookupCache (get_or_fetch (fun _ => (0 : ℕ)) [] "customer_intelligence" 0).2.1
      "customer_intelligence" = some ⟨0, 0⟩ ∧
    (300 < 0 + CACHE_TTL →
      get_or_fetch (fun _ => (0 : ℕ))
          (get_or_fetch (fun _ => (0 : ℕ)) [] "customer_intelligence" 0).2.1
          "customer_intelligence" 300
        = (0, (get_or_fetch (fun _ => (0 : ℕ)) [] "customer_intelligence" 0).2.1,
            false)) ∧
    (0 + CACHE_TTL ≤ 300 →
      (get_or_fetch (fun _ => (0 : ℕ))
          (get_or_fetch (fun _ => (0 : ℕ)) [] "customer_intelligence" 0).2.1
          "customer_intelligence" 300).2.2 = true ∧
      lookupCache
          ((get_or_fetch (fun _ => (0 : ℕ))
            (get_or_fetch (fun _ => (0 : ℕ)) [] "customer_intelligence" 0).2.1
            "customer_intelligence" 300)).2.1 "customer_intelligence"
        = some ⟨0, 300⟩) :=
  cache_hit_within_window_refresh_after (fun _ => (0 : ℕ)) []
    "customer_intelligence" 0 300 rfl

/-- Claim C2: for every time grain (Daily, Weekly, Monthly) and every
subset of restaurant identifiers, the time-bucketed aggregation is a
partition of the filtered rows: the per-(bucket, restaurant) sums of
daily_revenue add up to the total daily_revenue of the filtered
rows. -/
theorem df_plot_partitions_filtered_sum (grain : TimeGrain)
    (sel : List String) (rows : List TrendRow) :
    ((df_plot grain sel rows).map Prod.snd).sum
      = ((df_filtered sel rows).map revenueVal).sum :=
  groupbySum_total _ revenueVal (df_filtered sel rows)

/-- Claim C3 (counterexample): the claim fails at both cited sites.
The trends-table coercion of src/app.py line 351 maps the unparseable
input "abc" to NaN, which is neither finite nor exactly 0.0; and the
designated-column normalization of lines 25-28 maps the text "inf" to
positive infinity — `pd.to_numeric(errors='coerce')` parses infinity
literals (and saturates out-of-range decimals) to ±inf, and
`.fillna(0)` replaces only NaN — so its output is not always
finite either. -/
theorem numeric_normalization_counterexample :
    coerceTrendRevenue (PyVal.text "abc") = PyFloat.nan ∧
    coerceTrendRevenue (PyVal.text "abc") ≠ PyFloat.fin 0 ∧
    cleanNumericCell (PyVal.text "inf") = PyFloat.inf ∧
    (cleanNumericCell (PyVal.text "inf")).isFinite = false := by
  with_unfolding_all decide

/-- Claim C3 (amended): the designated-column normalization of
src/app.py lines 25-28 maps every input that cannot be parsed as a
number to exactly 0.0, and its output is never NaN — but it is not
always finite, since text parsed as an infinity (an inf/Infinity
literal, or a decimal beyond float64 range) passes through
`.fillna(0)` as ±inf.  The trends table's daily_revenue coercion
(line 351) moreover lacks the `.fillna(0)` step and leaves
unparseable inputs as NaN rather than 0.0. -/
theorem numeric_normalization_amended (v : PyVal) :
    cleanNumericCell v ≠ PyFloat.nan ∧
    (toNumericCoerce v = PyFloat.nan → cleanNumericCell v = PyFloat.fin 0) ∧
    (toNumericCoerce v = PyFloat.nan → coerceTrendRevenue v = PyFloat.nan) := by
  refine ⟨?_, fun h => by simp [cleanNumericCell, h, fillna0], fun h => h⟩
  cases h : toNumericCoerce v <;> simp [cleanNumericCell, h, fillna0]

/-- Claim C3 witness: the amended theorem applied at the unparseable
input "abc". -/
theorem numeric_normalization_amended_witness :
    cleanNumericCell (PyVal.text "abc") ≠ PyFloat.nan ∧
    cleanNumericCell (PyVal.text "abc") = PyFloat.fin 0 ∧
    coerceTrendRevenue (PyVal.text "abc") = PyFloat.nan :=
  ⟨(numeric_normalization_amended (PyVal.text "abc")).1,
   (numeric_normalization_amended (PyVal.text "abc")).2.1
     (by with_unfolding_all decide),
   (numeric_normalization_amended (PyVal.text "abc")).2.2
     (by with_unfolding_all decide)⟩

/-- Claim C4: for every N between 5 and 100 and every
customer-intelligence table, the top-N selection returns exactly
min(N, number of rows) rows, sorted in descending order of
current_clv, and — when user_id is unique in the input — contains no
duplicate customer identifiers. -/
theorem df_top_customers_spec (top_n : ℕ) (df : List CustomerRow)
    (h5 : 5 ≤ top_n) (h100 : top_n ≤ 100)
    (hids : (df.map (fun r => r.user_id)).Nodup) :
    (df_top_customers top_n df).length = min top_n df.length ∧
    List.Sorted clvDescOrder (df_top_customers top_n df) ∧
    ((df_top_customers top_n df).map (fun r => r.user_id)).Nodup := by
  refine ⟨?_, ?_, ?_⟩
  · simp [df_top_customers]
  · exact List.Pairwise.sublist (List.take_sublist top_n _)
      (List.sorted_insertionSort clvDescOrder df)
  · have hperm : List.Perm
        ((List.insertionSort clvDescOrder df).map (fun r => r.user_id))
        (df.map (fun r => r.user_id)) :=
      (List.perm_insertionSort clvDescOrder df).map _
    have hnd : ((List.insertionSort clvDescOrder df).map
        (fun r => r.user_id)).Nodup := hperm.nodup_iff.mpr hids
    rw [df_top_customers, List.map_take]
    exact List.Pairwise.sublist (List.take_sublist top_n _) hnd

/-- Claim C4 witness: the top-N specification at N = 5 on a concrete
three-row table with distinct user identifiers. -/
theorem df_top_customers_spec_witness :
    (df_top_customers 5 sampleCustomers).length = min 5 sampleCustomers.length ∧
    List.Sorted clvDescOrder (df_top_customers 5 sampleCustomers) ∧
    ((df_top_customers 5 sampleCustomers).map (fun r => r.user_id)).Nodup :=
  df_top_customers_spec 5 sampleCustomers (by decide) (by decide)
    (by with_unfolding_all decide)

/-- Claim C5 (the code evaluated at the failing input): for the
concrete table `zeroOrdersTrendRows` the rollup's only restaurant has
denominator `avg_daily_orders * days_active` equal to zero, and the
derived `avg_order_value` is positive infinity — an unguarded
non-finite float, not a defined finite sentinel. -/
theorem avg_order_value_unguarded_at_zero_denominator :
    (df_store_perf zeroOrdersTrendRows).map
        (fun r => PyFloat.mul r.avg_daily_orders (PyFloat.fin r.days_active))
      = [PyFloat.fin 0] ∧
    (df_store_perf zeroOrdersTrendRows).map (fun r => r.avg_order_value)
      = [PyFloat.inf] ∧
    PyFloat.inf.isFinite = false := by
  refine ⟨?_, ?_, rfl⟩
  · simp [df_store_perf, zeroOrdersTrendRows, pandasSum, pandasMean, skipnaVals,
      derivedAov, PyFloat.mul, PyFloat.div, List.dedup, List.filter]
  · simp [df_store_perf, zeroOrdersTrendRows, pandasSum, pandasMean, skipnaVals,
      derivedAov, PyFloat.mul, PyFloat.div, List.dedup, List.filter]
    norm_num

/-- Claim C6 (the code evaluated at the failing input): with a
non-member average order value of zero and a member average order
value of 45, the loyalty lift computation of src/app.py line 529
produces positive infinity — nothing in the code guards the zero
denominator before the value is formatted into the rendered delta
text. -/
theorem aov_diff_unguarded_at_zero_denominator :
    aov_diff 45 0 = PyFloat.inf ∧ PyFloat.inf.isFinite = false := by
  with_unfolding_all decide

/-- Claim C7: for every pair of metrics with non-zero denominator the
lift equals (A - B) / B * 100; in particular, for member AOV 45.00 and
non-member AOV 52.83 the lift is -8700/587 ≈ -14.8211%, within half an
ulp of the claimed -14.82%. -/
theorem aov_diff_formula_and_value :
    (∀ a b : ℚ, b ≠ 0 → aov_diff a b = PyFloat.fin ((a - b) / b * 100)) ∧
    aov_diff 45 (5283/100) = PyFloat.fin (-8700/587) ∧
    |(-8700/587 : ℚ) - (-1482/100)| < 1/200 := by
  refine ⟨fun a b hb => ?_, ?_, ?_⟩
  · simp [aov_diff, PyFloat.div, PyFloat.mul, hb]
  · simp [aov_diff, PyFloat.div, PyFloat.mul]
    norm_num
  · with_unfolding_all decide

/-- Claim C7 witness: the lift formula applied at the concrete pair
(2, 1), whose lift is 100%. -/
theorem aov_diff_formula_and_value_witness :
    aov_diff 2 1 = PyFloat.fin 100 := by
  have h := aov_diff_formula_and_value.1 2 1 (by norm_num)
  norm_num at h
  exact h

/-- Claim C8 (counterexample): the discount revenue share the code
computes is 46956840000/1803928377 ≈ 26.0303%, which differs from the
claimed 26.02% by more than half of the displayed two-decimal
precision. -/
theorem disc_rev_pct_not_26_02 :
    ¬ (|disc_rev_pct - 2602/100| < 1/200) := by
  with_unfolding_all decide

/-- Claim C8 (amended): with the hard-coded order counts 9150 and
122178 and revenues 4,695,684.17 and 13,343,599.60, the discount
order share is ≈ 6.97% and the discount revenue share is ≈ 26.03%
(not 26.02%), both to two displayed decimals. -/
theorem discount_roi_shares :
    |disc_order_pct - 697/100| < 1/200 ∧
    |disc_rev_pct - 2603/100| < 1/200 := by
  with_unfolding_all decide

/-- Claim C9: when no row of the customer-intelligence table is both
High tier and Churn Risk, the gap view renders the defined empty
state (`none`): the empty branch is taken and no row of the empty
selection is accessed. -/
theorem gapView_empty_state (df : List CustomerRow)
    (h : ∀ r ∈ df, ¬(r.clv_tier = "High" ∧ r.segment = "Churn Risk")) :
    gapView df = none := by
  have hgap : df_gap df = [] := by
    rw [df_gap, List.filter_eq_nil_iff]
    intro r hr
    have hr2 := h r hr
    simp only [Bool.and_eq_true, beq_iff_eq]
    intro hcon
    exact hr2 ⟨hcon.1, hcon.2⟩
  simp [gapView, hgap]

/-- Claim C9 witness: the gap view of a concrete table with no
High/Churn-Risk row is the empty state. -/
theorem gapView_empty_state_witness :
    gapView sampleNoGapCustomers = none :=
  gapView_empty_state sampleNoGapCustomers (by with_unfolding_all decide)

/-- Claim C10: the Discount Effectiveness section's numeric outputs
are computed entirely from hard-coded literals — for any two contents
of the loaded discount_effectiveness table, the outputs are
identical. -/
theorem discountSection_ignores_table (t₁ t₂ : List DiscountRow) :
    discountSectionMetrics t₁ = discountSectionMetrics t₂ := rfl
